import Mathlib

/-!
Shallow embedding of the order/cart/payment workflow of the e-commerce
backend (controllers/order.controller.js, models/Order.js, models/Product.js,
models/Cart.js, services/payment.service.js).

Modelling conventions:
* MongoDB documents become Lean structures holding exactly the fields the
  workflow reads or writes; object ids become natural numbers.
* Monetary values are rationals; the JavaScript constant 0.2 is modelled as
  2/10 and Number.prototype.toFixed(2) as rounding half-up to a multiple of
  1/100 (round2 below).
* Product.stock is an integer, not a natural: the source mutates it through
  Product.bulkWrite with a MongoDB $inc update, which bypasses the schema
  validator (min 0), so the stored value can become negative.
* Order.status is a String, not an inductive type: the payment-failure
  handler writes the literal "canceled", which is outside the schema enum,
  and an inductive status type could not represent that write.
* Each controller or model method becomes a function from a State to either
  an error or a new State.  In the source every error path returns (or
  throws) before the first database write of the operation, so returning
  Except.error with no new state is a faithful image of those paths.
* Mongoose findOneAndUpdate runs no document middleware, so the payment
  webhook handlers update fields directly; Order.create and document save()
  run the pre-save pricing hook (preSave below); document deleteOne() does
  not fire the remove middleware, so deleteOrder performs only the
  controller restock.
-/

namespace ECom

/-- Rounding to two decimal places, half-up: the model of
`parseFloat(x.toFixed(2))` for the non-negative amounts this workflow
produces.  For a rational q, q * 100 + 1/2 equals
(200 * q.num + q.den) / (2 * q.den), and Int division (Euclidean, here with
a positive divisor) is the floor. -/
def round2 (q : ℚ) : ℚ :=
  (((200 * q.num + (q.den : ℤ)) / (2 * (q.den : ℤ)) : ℤ) : ℚ) / 100

/-- Product document: the fields of productSchema that the order workflow
touches (models/Product.js lines 36-62). -/
structure Product where
  pid : Nat
  name : String
  price : ℚ
  stock : ℤ
deriving Repr, DecidableEq

/-- Cart line item (models/Cart.js cartItemSchema): product reference and
quantity.  The display-only fields (name, snapshot price, size, color,
image) play no role in the checkout computation, which re-reads the live
product, and are omitted. -/
structure CartItem where
  product : Nat
  quantity : Nat
deriving Repr, DecidableEq

/-- Order line item (models/Order.js orderItemSchema): frozen copy of the
product data at checkout time. -/
structure OrderItem where
  product : Nat
  name : String
  quantity : Nat
  price : ℚ
deriving Repr, DecidableEq

/-- Discount descriptor on an order (models/Order.js lines 120-127). -/
inductive DiscountType
  | percentage
  | fixed
deriving Repr, DecidableEq

structure Discount where
  value : ℚ
  dtype : DiscountType
deriving Repr, DecidableEq

/-- Order document: the fields of orderSchema that the workflow reads or
writes.  paymentStatus, paymentIntentId and amountPaid model the
paymentStatus and paymentDetails paths written by payment.service.js. -/
structure Order where
  oid : Nat
  items : List OrderItem
  itemsPrice : ℚ
  taxPrice : ℚ
  shippingPrice : ℚ
  totalPrice : ℚ
  status : String
  isPaid : Bool
  paymentStatus : Option String
  paymentIntentId : Option String
  amountPaid : Option ℚ
  notes : Option String
  discount : Option Discount
deriving Repr, DecidableEq

/-- The status enum of orderSchema (models/Order.js line 114). -/
def orderStatusEnum : List String :=
  ["pending", "processing", "shipped", "delivered", "cancelled", "refunded"]

/-- Database state: the products collection, the orders collection, and the
cart of the requesting user (checkout works on a single cart). -/
structure State where
  products : List Product
  orders : List Order
  cart : Option (List CartItem)
  nextOrderId : Nat
deriving Repr, DecidableEq

/-- Error outcomes of the workflow operations, named after the source
messages:
cartEmpty = "Panier vide"; insufficientStock = "Stock insuffisant pour ...";
productMissing = the TypeError raised when Product.findById returns null
inside the validation loop; invalidStatus = "Statut invalide";
orderNotFound = "Commande non trouvee"; orphanPayment = "Commande non
trouvee pour ce paiement"; cannotCancelShipped = "Impossible d annuler une
commande deja expediee"; notPaid = "Impossible de rembourser une commande
non payee"; alreadyRefunded = "Cette commande a deja ete remboursee". -/
inductive Err
  | cartEmpty
  | productMissing
  | insufficientStock (pid : Nat)
  | invalidStatus
  | orderNotFound
  | orphanPayment
  | cannotCancelShipped
  | notPaid
  | alreadyRefunded
deriving Repr, DecidableEq

/-! ### Generic list-store primitives -/

/-- MongoDB updateOne: update the first element matching the filter. -/
def updateFirst (p : α → Bool) (f : α → α) : List α → List α
  | [] => []
  | x :: xs => if p x then f x :: xs else x :: updateFirst p f xs

/-- MongoDB deleteOne: remove the first element matching the filter. -/
def removeFirst (p : α → Bool) : List α → List α
  | [] => []
  | x :: xs => if p x then xs else x :: removeFirst p xs

/-- A single `updateOne { filter: { _id: pid }, update: { $inc: { stock: d } } }`. -/
def incFirst (pid : Nat) (d : ℤ) : List Product → List Product
  | [] => []
  | p :: ps =>
    if p.pid == pid then { p with stock := p.stock + d } :: ps
    else p :: incFirst pid d ps

/-- An ordered Product.bulkWrite of stock $inc operations. -/
def applyOps (ops : List (Nat × ℤ)) (ps : List Product) : List Product :=
  ops.foldl (fun acc op => incFirst op.1 op.2 acc) ps

/-- The bulk operations built by createOrder (stock decrement per cart line). -/
def decOps (items : List CartItem) : List (Nat × ℤ) :=
  items.map (fun it => (it.product, -(it.quantity : ℤ)))

/-- The bulk operations built by updateOrderStatus / deleteOrder
(stock increment per order line). -/
def incOps (its : List OrderItem) : List (Nat × ℤ) :=
  its.map (fun it => (it.product, (it.quantity : ℤ)))

/-- Product.findById. -/
def findProduct (s : State) (pid : Nat) : Option Product :=
  s.products.find? (fun p => p.pid == pid)

/-- Order.findById. -/
def findOrder (s : State) (oid : Nat) : Option Order :=
  s.orders.find? (fun o => o.oid == oid)

/-- The order matched by a payment correlation id
(`Order.findOne({ 'paymentDetails.paymentIntentId': id })`). -/
def matchedOrder (s : State) (intentId : String) : Option Order :=
  s.orders.find? (fun o => o.paymentIntentId == some intentId)

/-- Available stock of a product id in a product list (stock of the first
document whose _id matches, as MongoDB findById reads it). -/
def stockOfP : List Product → Nat → Option ℤ
  | [], _ => none
  | p :: ps, pid => if p.pid = pid then some p.stock else stockOfP ps pid

/-- Available stock of a product id in a state. -/
def stockOf (s : State) (pid : Nat) : Option ℤ :=
  stockOfP s.products pid

/-- Status of an order id in a state. -/
def statusOf (s : State) (oid : Nat) : Option String :=
  (findOrder s oid).map (fun o => o.status)

/-- Total quantity requested for one product across the cart lines. -/
def cartQty : List CartItem → Nat → Nat
  | [], _ => 0
  | it :: its, pid => (if it.product = pid then it.quantity else 0) + cartQty its pid

/-- Total quantity of one product across the order lines. -/
def orderQty : List OrderItem → Nat → Nat
  | [], _ => 0
  | it :: its, pid => (if it.product = pid then it.quantity else 0) + orderQty its pid

/-! ### The order workflow operations -/

/-- `items.reduce((acc, item) => acc + item.price * item.quantity, 0)`
(controllers/order.controller.js line 48, models/Order.js line 144). -/
def itemsTotal (its : List OrderItem) : ℚ :=
  its.foldl (fun acc it => acc + it.price * (it.quantity : ℚ)) 0

/-- The pre-save pricing hook of orderSchema (models/Order.js lines
142-174): recomputes itemsPrice, taxPrice (20 percent, toFixed(2)),
shippingPrice (free above 100) and totalPrice (minus the discount,
toFixed(2)).  The isPaid / isDelivered branches of the hook test
isModified flags that none of the modelled operations sets, so they are
inert here. -/
def preSave (o : Order) : Order :=
  let ip := itemsTotal o.items
  let tax := round2 (ip * (2 / 10))
  let ship : ℚ := if ip > 100 then 0 else 10
  let disc : ℚ :=
    match o.discount with
    | some d =>
      match d.dtype with
      | DiscountType.fixed => d.value
      | DiscountType.percentage => ip * (d.value / 100)
    | none => 0
  { o with
    itemsPrice := ip
    taxPrice := tax
    shippingPrice := ship
    totalPrice := round2 (ip + tax + ship - disc) }

/-- The stock-validation loop of createOrder (controllers/order.controller.js
lines 26-35): for each cart line, re-read the product and compare stock
with the requested quantity; the first violation aborts the request. -/
def validateStock : List CartItem → List Product → Option Err
  | [], _ => none
  | it :: its, ps =>
    match ps.find? (fun p => p.pid == it.product) with
    | none => some Err.productMissing
    | some p =>
      if p.stock < (it.quantity : ℤ) then some (Err.insufficientStock it.product)
      else validateStock its ps

/-- Build one frozen order item from a cart line and the live product
(controllers/order.controller.js lines 38-45).  The none branch is
unreachable after validateStock has succeeded. -/
def mkOrderItem (ps : List Product) (it : CartItem) : OrderItem :=
  match ps.find? (fun p => p.pid == it.product) with
  | some p => { product := it.product, name := p.name, quantity := it.quantity, price := p.price }
  | none => { product := it.product, name := "", quantity := it.quantity, price := 0 }

/-- POST /api/orders — createOrder (controllers/order.controller.js lines
12-85): reject an empty cart, validate stock line by line (every error
return precedes the first write), freeze the order items, create the order
(Order.create runs the pre-save pricing hook; status defaults to pending),
decrement stock with one bulkWrite, and delete the cart. -/
def createOrder (s : State) : Except Err (State × Order) :=
  match s.cart with
  | none => Except.error Err.cartEmpty
  | some items =>
    if items.isEmpty then Except.error Err.cartEmpty
    else
      match validateStock items s.products with
      | some e => Except.error e
      | none =>
        let orderItems := items.map (mkOrderItem s.products)
        let ip := itemsTotal orderItems
        let ord := preSave
          { oid := s.nextOrderId
            items := orderItems
            itemsPrice := ip
            taxPrice := ip * (2 / 10)
            shippingPrice := 0
            totalPrice := ip + ip * (2 / 10)
            status := "pending"
            isPaid := false
            paymentStatus := none
            paymentIntentId := none
            amountPaid := none
            notes := none
            discount := none }
        Except.ok
          ({ products := applyOps (decOps items) s.products
             orders := s.orders ++ [ord]
             cart := none
             nextOrderId := s.nextOrderId + 1 }, ord)

/-- The status values accepted by updateOrderStatus
(controllers/order.controller.js line 171). -/
def validStatuses : List String := ["processing", "shipped", "delivered", "cancelled"]

/-- PUT /api/orders/:id/status — updateOrderStatus
(controllers/order.controller.js lines 169-211): validate the target
status, load the order, restock every line if the target is cancelled
(with no check of the current status), then set the status and save
(running the pre-save pricing hook). -/
def updateOrderStatus (s : State) (oid : Nat) (status : String) : Except Err State :=
  if validStatuses.contains status = false then Except.error Err.invalidStatus
  else
    match findOrder s oid with
    | none => Except.error Err.orderNotFound
    | some o =>
      let products1 :=
        if status == "cancelled" then applyOps (incOps o.items) s.products else s.products
      Except.ok
        { s with
          products := products1
          orders := updateFirst (fun o2 => o2.oid == oid)
            (fun o2 => preSave { o2 with status := status }) s.orders }

/-- orderSchema.methods.cancelOrder (models/Order.js lines 177-184): refuse
when the order is delivered or shipped, otherwise set the status to
cancelled and save.  The method touches no product stock. -/
def cancelOrder (s : State) (oid : Nat) : Except Err State :=
  match findOrder s oid with
  | none => Except.error Err.orderNotFound
  | some o =>
    if o.status == "delivered" || o.status == "shipped" then
      Except.error Err.cannotCancelShipped
    else
      Except.ok
        { s with
          orders := updateFirst (fun o2 => o2.oid == oid)
            (fun o2 => preSave { o2 with status := "cancelled" }) s.orders }

/-- orderSchema.methods.requestRefund (models/Order.js lines 187-199):
refuse when the order is not paid, refuse when it is already refunded,
otherwise set the status to refunded, record the reason, and save. -/
def requestRefund (s : State) (oid : Nat) (reason : Option String) : Except Err State :=
  match findOrder s oid with
  | none => Except.error Err.orderNotFound
  | some o =>
    if o.isPaid = false then Except.error Err.notPaid
    else if o.status == "refunded" then Except.error Err.alreadyRefunded
    else
      Except.ok
        { s with
          orders := updateFirst (fun o2 => o2.oid == oid)
            (fun o2 => preSave
              { o2 with
                status := "refunded"
                notes := some (reason.getD "Remboursement demande") }) s.orders }

/-- PaymentService.handlePaymentSuccess (services/payment.service.js lines
160-182): findOneAndUpdate by payment intent id, setting paymentStatus to
succeeded, status to processing and recording the captured amount; throw
when no order matches.  findOneAndUpdate runs no document middleware, so
the pricing hook does not run. -/
def handlePaymentSuccess (s : State) (intentId : String) (amountReceived : ℚ) :
    Except Err State :=
  match matchedOrder s intentId with
  | none => Except.error Err.orphanPayment
  | some _ =>
    Except.ok
      { s with
        orders := updateFirst (fun o => o.paymentIntentId == some intentId)
          (fun o =>
            { o with
              paymentStatus := some "succeeded"
              status := "processing"
              amountPaid := some amountReceived }) s.orders }

/-- PaymentService.handlePaymentFailure (services/payment.service.js lines
188-203): findOneAndUpdate by payment intent id, setting paymentStatus to
failed and status to the literal "canceled".  A missing match is not an
error (the result is not checked), no stock is touched, and no middleware
runs. -/
def handlePaymentFailure (s : State) (intentId : String) : State :=
  { s with
    orders := updateFirst (fun o => o.paymentIntentId == some intentId)
      (fun o => { o with paymentStatus := some "failed", status := "canceled" }) s.orders }

/-- DELETE /api/orders/:id (admin) — deleteOrder
(controllers/order.controller.js lines 216-240): load the order, restock
every line unconditionally, then delete the document.  Document deleteOne
fires no remove middleware, so the restock happens exactly once. -/
def deleteOrder (s : State) (oid : Nat) : Except Err State :=
  match findOrder s oid with
  | none => Except.error Err.orderNotFound
  | some o =>
    Except.ok
      { s with
        products := applyOps (incOps o.items) s.products
        orders := removeFirst (fun o2 => o2.oid == oid) s.orders }

/-- Is an Except result a success. -/
def exOk : Except Err α → Bool
  | Except.ok _ => true
  | Except.error _ => false

/-- Net stock change a bulk-operation list applies to one product id. -/
def opsTotal : List (Nat × ℤ) → Nat → ℤ
  | [], _ => 0
  | op :: ops, pid => (if op.1 = pid then op.2 else 0) + opsTotal ops pid

/-- A rational is a whole number of cents. -/
def IsCents (q : ℚ) : Prop := ∃ k : ℤ, q = (k : ℚ) / 100

/-! ### Lemmas about the store primitives -/

theorem stockOfP_eq_find? (ps : List Product) (pid : Nat) :
    stockOfP ps pid = (ps.find? (fun p => p.pid == pid)).map (fun p => p.stock) := by
  induction ps with
  | nil => simp [stockOfP]
  | cons p ps ih =>
    by_cases h : p.pid = pid <;> simp [stockOfP, List.find?_cons, h, ih]

theorem stockOfP_incFirst (ps : List Product) (pid : Nat) (d : ℤ) (pid2 : Nat) :
    stockOfP (incFirst pid d ps) pid2 =
      if pid2 = pid then (stockOfP ps pid2).map (fun v => v + d)
      else stockOfP ps pid2 := by
  induction ps with
  | nil => simp [incFirst, stockOfP]
  | cons p ps ih =>
    by_cases h1 : p.pid = pid
    · by_cases h2 : p.pid = pid2
      · have h3 : pid2 = pid := h2.symm.trans h1
        simp [incFirst, stockOfP, h1, h2, h3]
      · have h3 : ¬ pid2 = pid := fun h => h2 (h1.trans h.symm)
        have h4 : ¬ pid = pid2 := fun h => h3 h.symm
        simp [incFirst, stockOfP, h1, h2, h3, h4]
    · by_cases h2 : p.pid = pid2
      · have h3 : ¬ pid2 = pid := fun h => h1 (h2.trans h)
        simp [incFirst, stockOfP, h1, h2, h3]
      · simp [incFirst, stockOfP, h1, h2, ih]

theorem stockOfP_applyOps (ops : List (Nat × ℤ)) (ps : List Product) (pid : Nat) :
    stockOfP (applyOps ops ps) pid = (stockOfP ps pid).map (fun v => v + opsTotal ops pid) := by
  induction ops generalizing ps with
  | nil =>
    show stockOfP ps pid = (stockOfP ps pid).map (fun v => v + 0)
    cases stockOfP ps pid <;> simp
  | cons op ops ih =>
    have step : applyOps (op :: ops) ps = applyOps ops (incFirst op.1 op.2 ps) := rfl
    have hops : opsTotal (op :: ops) pid = (if op.1 = pid then op.2 else 0) + opsTotal ops pid := rfl
    rw [step, ih, stockOfP_incFirst, hops]
    by_cases h : pid = op.1
    · rw [if_pos h, if_pos h.symm]
      cases stockOfP ps pid <;> simp [add_assoc]
    · rw [if_neg h, if_neg (fun hh => h hh.symm), zero_add]

theorem opsTotal_decOps (items : List CartItem) (pid : Nat) :
    opsTotal (decOps items) pid = -(cartQty items pid : ℤ) := by
  induction items with
  | nil => rfl
  | cons it its ih =>
    have step : decOps (it :: its) = (it.product, -(it.quantity : ℤ)) :: decOps its := rfl
    rw [step]
    show (if it.product = pid then -(it.quantity : ℤ) else 0) + opsTotal (decOps its) pid =
      -(((if it.product = pid then it.quantity else 0) + cartQty its pid : ℕ) : ℤ)
    by_cases h : it.product = pid
    · rw [if_pos h, if_pos h, ih]; push_cast; ring
    · rw [if_neg h, if_neg h, ih]; push_cast; ring

theorem opsTotal_incOps (its : List OrderItem) (pid : Nat) :
    opsTotal (incOps its) pid = (orderQty its pid : ℤ) := by
  induction its with
  | nil => rfl
  | cons it its ih =>
    have step : incOps (it :: its) = (it.product, (it.quantity : ℤ)) :: incOps its := rfl
    rw [step]
    show (if it.product = pid then (it.quantity : ℤ) else 0) + opsTotal (incOps its) pid =
      (((if it.product = pid then it.quantity else 0) + orderQty its pid : ℕ) : ℤ)
    by_cases h : it.product = pid
    · rw [if_pos h, if_pos h, ih]; push_cast; ring
    · rw [if_neg h, if_neg h, ih]; push_cast; ring

theorem find?_updateFirst (p : α → Bool) (f : α → α) (l : List α) (x : α)
    (hfind : l.find? p = some x) (hf : p (f x) = true) :
    (updateFirst p f l).find? p = some (f x) := by
  induction l with
  | nil => simp at hfind
  | cons y ys ih =>
    by_cases h : p y
    · simp [List.find?_cons, h] at hfind
      subst hfind
      simp [updateFirst, h, List.find?_cons, hf]
    · simp [List.find?_cons, h] at hfind
      simp [updateFirst, h, List.find?_cons, ih hfind]

theorem updateFirst_idem (p : α → Bool) (f : α → α) (l : List α)
    (hp : ∀ x, p x = true → p (f x) = true) (hf : ∀ x, f (f x) = f x) :
    updateFirst p f (updateFirst p f l) = updateFirst p f l := by
  induction l with
  | nil => rfl
  | cons y ys ih =>
    by_cases h : p y
    · simp [updateFirst, h, hp y h, hf y]
    · simp [updateFirst, h, ih]

theorem validateStock_none (items : List CartItem) (ps : List Product)
    (hv : validateStock items ps = none) :
    ∀ it ∈ items, ∀ p, ps.find? (fun q => q.pid == it.product) = some p →
      (it.quantity : ℤ) ≤ p.stock := by
  induction items with
  | nil => intro it h; simp at h
  | cons it its ih =>
    intro it2 hmem p hp
    rcases List.mem_cons.mp hmem with h | h
    · subst h
      unfold validateStock at hv
      rw [hp] at hv
      by_cases hlt : p.stock < (it2.quantity : ℤ)
      · simp [hlt] at hv
      · exact le_of_not_lt hlt
    · unfold validateStock at hv
      cases hfind : ps.find? (fun q => q.pid == it.product) with
      | none => rw [hfind] at hv; simp at hv
      | some q =>
        rw [hfind] at hv
        by_cases hlt : q.stock < (it.quantity : ℤ)
        · simp [hlt] at hv
        · simp [hlt] at hv
          exact ih hv it2 h p hp

theorem validateStock_err (items : List CartItem) (ps : List Product)
    (hall : ∀ it ∈ items, ∃ p, ps.find? (fun q => q.pid == it.product) = some p)
    (hbad : ∃ it ∈ items, ∃ p, ps.find? (fun q => q.pid == it.product) = some p ∧
      p.stock < (it.quantity : ℤ)) :
    ∃ pid, validateStock items ps = some (Err.insufficientStock pid) := by
  induction items with
  | nil => rcases hbad with ⟨it, h, _⟩; simp at h
  | cons it its ih =>
    obtain ⟨p, hp⟩ := hall it (List.mem_cons_self it its)
    have hstep : validateStock (it :: its) ps =
        (match ps.find? (fun q => q.pid == it.product) with
         | none => some Err.productMissing
         | some p =>
           if p.stock < (it.quantity : ℤ) then some (Err.insufficientStock it.product)
           else validateStock its ps) := rfl
    by_cases hlt : p.stock < (it.quantity : ℤ)
    · exact ⟨it.product, by rw [hstep, hp]; simp [hlt]⟩
    · have hrec : validateStock (it :: its) ps = validateStock its ps := by
        rw [hstep, hp]; simp [hlt]
      rcases hbad with ⟨it2, hmem, p2, hp2, hlt2⟩
      rcases List.mem_cons.mp hmem with h | h
      · subst h
        rw [hp] at hp2
        cases hp2
        exact absurd hlt2 hlt
      · obtain ⟨pid, hpid⟩ := ih (fun it3 h3 => hall it3 (List.mem_cons_of_mem _ h3))
          ⟨it2, h, p2, hp2, hlt2⟩
        exact ⟨pid, hrec ▸ hpid⟩

/-! ### Lemmas about round2 and cent amounts -/

theorem round2_cents (k : ℤ) : round2 ((k : ℚ) / 100) = (k : ℚ) / 100 := by
  set q : ℚ := (k : ℚ) / 100 with hq
  have hdpos : (0 : ℤ) < (q.den : ℤ) := by exact_mod_cast q.pos
  have hnum : q.num * 100 = k * (q.den : ℤ) := by
    have h1 : (q.num : ℚ) / (q.den : ℚ) = (k : ℚ) / 100 := by
      rw [Rat.num_div_den q]
    have hden0 : ((q.den : ℚ)) ≠ 0 := by
      exact_mod_cast hdpos.ne'
    have h2 : (q.num : ℚ) * 100 = (k : ℚ) * (q.den : ℚ) :=
      (div_eq_div_iff hden0 (by norm_num)).mp h1
    exact_mod_cast h2
  have harith : 200 * q.num + (q.den : ℤ) = (q.den : ℤ) + k * (2 * (q.den : ℤ)) := by
    linarith [hnum]
  have hne : (2 * (q.den : ℤ)) ≠ 0 := by positivity
  have hdiv : (200 * q.num + (q.den : ℤ)) / (2 * (q.den : ℤ)) = k := by
    rw [harith, Int.add_mul_ediv_right _ _ hne,
      Int.ediv_eq_zero_of_lt (le_of_lt hdpos) (by linarith), zero_add]
  show (((200 * q.num + (q.den : ℤ)) / (2 * (q.den : ℤ)) : ℤ) : ℚ) / 100 = q
  rw [hdiv, hq]

theorem isCents_round2 (q : ℚ) : IsCents (round2 q) :=
  ⟨(200 * q.num + (q.den : ℤ)) / (2 * (q.den : ℤ)), rfl⟩

theorem round2_of_isCents (q : ℚ) (h : IsCents q) : round2 q = q := by
  rcases h with ⟨k, rfl⟩
  exact round2_cents k

theorem IsCents.add {a b : ℚ} (ha : IsCents a) (hb : IsCents b) : IsCents (a + b) := by
  rcases ha with ⟨j, rfl⟩
  rcases hb with ⟨k, rfl⟩
  exact ⟨j + k, by push_cast; ring⟩

theorem IsCents.mul_natCast {a : ℚ} (ha : IsCents a) (n : ℕ) : IsCents (a * n) := by
  rcases ha with ⟨j, rfl⟩
  exact ⟨j * n, by push_cast; ring⟩

theorem isCents_zero : IsCents 0 := ⟨0, by norm_num⟩

theorem isCents_ten : IsCents 10 := ⟨1000, by norm_num⟩

theorem isCents_itemsTotal (its : List OrderItem) (h : ∀ it ∈ its, IsCents it.price) :
    IsCents (itemsTotal its) := by
  suffices haux : ∀ acc, IsCents acc →
      IsCents (its.foldl (fun acc it => acc + it.price * (it.quantity : ℚ)) acc) from
    haux 0 isCents_zero
  induction its with
  | nil => intro acc hacc; exact hacc
  | cons it its ih =>
    intro acc hacc
    exact ih (fun j hj => h j (List.mem_cons_of_mem _ hj)) _
      (hacc.add ((h it (List.mem_cons_self it its)).mul_natCast _))

theorem preSave_status (o : Order) : (preSave o).status = o.status := rfl

theorem preSave_items (o : Order) : (preSave o).items = o.items := rfl

theorem preSave_oid (o : Order) : (preSave o).oid = o.oid := rfl

theorem cartQty_eq_zero (items : List CartItem) (pid : Nat)
    (h : ∀ j ∈ items, j.product ≠ pid) : cartQty items pid = 0 := by
  induction items with
  | nil => rfl
  | cons hd tl ih =>
    have h1 := h hd (List.mem_cons_self hd tl)
    rw [show cartQty (hd :: tl) pid = (if hd.product = pid then hd.quantity else 0) +
      cartQty tl pid from rfl, if_neg h1, zero_add]
    exact ih (fun j hj => h j (List.mem_cons_of_mem _ hj))

theorem cartQty_of_nodup (items : List CartItem) (it : CartItem)
    (hnd : (items.map (fun i => i.product)).Nodup) (hmem : it ∈ items) :
    cartQty items it.product = it.quantity := by
  induction items with
  | nil => simp at hmem
  | cons hd tl ih =>
    rw [List.map_cons, List.nodup_cons] at hnd
    rcases List.mem_cons.mp hmem with h | h
    · subst h
      have hz : cartQty tl it.product = 0 := by
        refine cartQty_eq_zero tl it.product (fun j hj heq => ?_)
        exact hnd.1 (heq ▸ List.mem_map_of_mem (fun i => i.product) hj)
      simp [cartQty, hz]
    · have hne : hd.product ≠ it.product := by
        intro heq
        exact hnd.1 (heq ▸ List.mem_map_of_mem (fun i => i.product) h)
      simp [cartQty, hne]
      exact ih hnd.2 h

/-! ### Concrete fixtures used by witnesses and counterexamples -/

/-- Fallback order used by extraction helpers (never reached on the
evaluated inputs). -/
def emptyOrder : Order :=
  { oid := 0, items := [], itemsPrice := 0, taxPrice := 0, shippingPrice := 0,
    totalPrice := 0, status := "", isPaid := false, paymentStatus := none,
    paymentIntentId := none, amountPaid := none, notes := none, discount := none }

/-! ### Claim C1 -/

/-- Claim C1: checkout (createOrder) is all-or-nothing.  If every cart
line's product resolves and some line's quantity exceeds that product's
stock, createOrder returns an insufficient-stock error (producing no new
state: in the source every error return precedes the first write, and here
no state accompanies an error).  If checkout succeeds, exactly one order is
appended, the cart is emptied, and each product's stock is decremented by
exactly the total quantity ordered for it. -/
theorem C1_checkout_all_or_nothing (s : State) (items : List CartItem)
    (hcart : s.cart = some items) :
    (∀ s1 ord, createOrder s = Except.ok (s1, ord) →
        s1.orders = s.orders ++ [ord]
        ∧ s1.cart = none
        ∧ ∀ pid, stockOf s1 pid = (stockOf s pid).map (fun v => v - (cartQty items pid : ℤ)))
    ∧ ((∀ it ∈ items, ∃ p, findProduct s it.product = some p)
        → (∃ it ∈ items, ∃ p, findProduct s it.product = some p ∧ p.stock < (it.quantity : ℤ))
        → ∃ pid, createOrder s = Except.error (Err.insufficientStock pid)) := by
  constructor
  · intro s1 ord hok
    unfold createOrder at hok
    simp only [hcart] at hok
    split at hok
    · cases hok
    · split at hok
      · cases hok
      · cases hok
        refine ⟨rfl, rfl, fun pid => ?_⟩
        show stockOfP (applyOps (decOps items) s.products) pid =
          (stockOfP s.products pid).map (fun v => v - (cartQty items pid : ℤ))
        rw [stockOfP_applyOps, opsTotal_decOps]
        cases stockOfP s.products pid <;> simp [sub_eq_add_neg]
  · intro hall hbad
    obtain ⟨pid, hv⟩ := validateStock_err items s.products hall hbad
    refine ⟨pid, ?_⟩
    have hne : items ≠ [] := by
      rcases hbad with ⟨it, hmem, _⟩
      exact List.ne_nil_of_mem hmem
    have hemp : items.isEmpty = false := by
      cases items with
      | nil => exact absurd rfl hne
      | cons a l => rfl
    unfold createOrder
    simp only [hcart, hemp, hv]
    rfl

def c1s : State :=
  { products := [{ pid := 1, name := "Tee", price := 10, stock := 5 }]
    orders := []
    cart := some [{ product := 1, quantity := 3 }]
    nextOrderId := 0 }

def c1res : State × Order :=
  match createOrder c1s with
  | Except.ok r => r
  | Except.error _ => (c1s, emptyOrder)

unseal Rat.mul Rat.add Rat.sub Rat.inv in
/-- Witness for C1 at a concrete checkout: one product with stock 5,
one cart line of quantity 3. -/
theorem C1_checkout_all_or_nothing_witness :
    c1res.1.orders = c1s.orders ++ [c1res.2]
    ∧ c1res.1.cart = none
    ∧ ∀ pid, stockOf c1res.1 pid =
        (stockOf c1s pid).map (fun v => v - (cartQty [{ product := 1, quantity := 3 }] pid : ℤ)) :=
  (C1_checkout_all_or_nothing c1s [{ product := 1, quantity := 3 }] rfl).1
    c1res.1 c1res.2 rfl

/-! ### Shared facts about the cancel and webhook paths -/

theorem statusOf_mk (ps : List Product) (os : List Order) (c : Option (List CartItem))
    (n : Nat) (oid : Nat) :
    statusOf { products := ps, orders := os, cart := c, nextOrderId := n } oid =
      (os.find? (fun o2 => o2.oid == oid)).map (fun o2 => o2.status) := rfl

theorem stockOf_mk (ps : List Product) (os : List Order) (c : Option (List CartItem))
    (n : Nat) (pid : Nat) :
    stockOf { products := ps, orders := os, cart := c, nextOrderId := n } pid =
      stockOfP ps pid := rfl

theorem matchedOrder_mk (ps : List Product) (os : List Order) (c : Option (List CartItem))
    (n : Nat) (i : String) :
    matchedOrder { products := ps, orders := os, cart := c, nextOrderId := n } i =
      os.find? (fun o2 => o2.paymentIntentId == some i) := rfl

theorem find?_pred {α : Type} (p : α → Bool) (l : List α) (x : α)
    (h : l.find? p = some x) : p x = true := List.find?_some h

/-- updateFirst keyed by order id, for an update that keeps the id. -/
theorem findOrder_updateFirst (orders : List Order) (oid : Nat) (f : Order → Order)
    (o : Order) (hfind : orders.find? (fun o2 => o2.oid == oid) = some o)
    (hf : (f o).oid = o.oid) :
    (updateFirst (fun o2 => o2.oid == oid) f orders).find? (fun o2 => o2.oid == oid) =
      some (f o) := by
  have hpo := find?_pred (fun o2 : Order => o2.oid == oid) orders o hfind
  refine find?_updateFirst _ _ _ _ hfind ?_
  show ((f o).oid == oid) = true
  rw [hf]
  exact hpo

/-- updateFirst keyed by payment correlation id, for an update that keeps
the correlation id. -/
theorem matched_updateFirst (orders : List Order) (i : String) (f : Order → Order)
    (o : Order) (hfind : orders.find? (fun o2 => o2.paymentIntentId == some i) = some o)
    (hf : (f o).paymentIntentId = o.paymentIntentId) :
    (updateFirst (fun o2 => o2.paymentIntentId == some i) f orders).find?
      (fun o2 => o2.paymentIntentId == some i) = some (f o) := by
  have hpo := find?_pred (fun o2 : Order => o2.paymentIntentId == some i) orders o hfind
  refine find?_updateFirst _ _ _ _ hfind ?_
  show ((f o).paymentIntentId == some i) = true
  rw [hf]
  exact hpo

/-- The admin cancel path: on any found order, updateOrderStatus with target
cancelled succeeds by setting the status and incrementing each product's
stock by the total ordered quantity, with no check of the current status. -/
theorem updateOrderStatus_cancel_spec (s : State) (oid : Nat) (o : Order)
    (hfind : findOrder s oid = some o) (s1 : State)
    (hupd : updateOrderStatus s oid "cancelled" = Except.ok s1) :
    statusOf s1 oid = some "cancelled"
    ∧ ∀ pid, stockOf s1 pid = (stockOf s pid).map (fun v => v + (orderQty o.items pid : ℤ)) := by
  have hcontains : validStatuses.contains "cancelled" = true := rfl
  unfold updateOrderStatus at hupd
  rw [hcontains] at hupd
  simp only [Bool.true_eq_false, if_false, hfind] at hupd
  cases hupd
  constructor
  · rw [statusOf_mk,
      findOrder_updateFirst s.orders oid _ o hfind rfl]
    rfl
  · intro pid
    rw [stockOf_mk]
    have hcond : (("cancelled" == "cancelled") = true) := rfl
    rw [if_pos hcond, stockOfP_applyOps, opsTotal_incOps]
    rfl

/-! ### Claim C7 -/

/-- Claim C7: the payment succeeded webhook locates the order by the stored
payment correlation id; with no match it signals an orphan-payment error;
otherwise it sets the order status to processing, records the captured
amount (and marks the payment succeeded), and leaves every product's stock
unchanged. -/
theorem C7_payment_success_effects (s : State) (i : String) (amt : ℚ) :
    (matchedOrder s i = none → handlePaymentSuccess s i amt = Except.error Err.orphanPayment)
    ∧ (∀ o, matchedOrder s i = some o →
        ∃ s1, handlePaymentSuccess s i amt = Except.ok s1
          ∧ s1.products = s.products
          ∧ matchedOrder s1 i =
              some { o with paymentStatus := some "succeeded", status := "processing",
                            amountPaid := some amt }) := by
  constructor
  · intro h
    unfold handlePaymentSuccess
    rw [h]
  · intro o ho
    have hmatch := matched_updateFirst s.orders i
      (fun o2 => { o2 with paymentStatus := some "succeeded", status := "processing",
                           amountPaid := some amt }) o ho rfl
    refine Exists.intro
      { s with
        orders := updateFirst (fun o2 => o2.paymentIntentId == some i)
          (fun o2 =>
            { o2 with
              paymentStatus := some "succeeded"
              status := "processing"
              amountPaid := some amt }) s.orders } ⟨?_, rfl, ?_⟩
    · unfold handlePaymentSuccess
      rw [ho]
    · rw [matchedOrder_mk]
      exact hmatch

def c7ord : Order :=
  { oid := 1, items := [{ product := 1, name := "Tee", quantity := 3, price := 10 }]
    itemsPrice := 30, taxPrice := 6, shippingPrice := 10, totalPrice := 46
    status := "pending", isPaid := false, paymentStatus := none
    paymentIntentId := some "pi_1", amountPaid := none, notes := none, discount := none }

def c7s : State :=
  { products := [{ pid := 1, name := "Tee", price := 10, stock := 2 }]
    orders := [c7ord]
    cart := none
    nextOrderId := 2 }

/-- Witness for C7: a pending order with correlation id pi_1. -/
theorem C7_payment_success_effects_witness :
    ∃ s1, handlePaymentSuccess c7s "pi_1" 46 = Except.ok s1
      ∧ s1.products = c7s.products
      ∧ matchedOrder s1 "pi_1" =
          some { c7ord with paymentStatus := some "succeeded", status := "processing",
                            amountPaid := some 46 } :=
  (C7_payment_success_effects c7s "pi_1" 46).2 c7ord rfl

/-! ### Claim C4 -/

/-- Claim C4: webhook handling is idempotent.  A succeeded event moves the
matched pending order to processing; delivering the same event again
returns the same state unchanged.  Replaying a failed event is likewise a
no-op, and the failure handler never touches product stock, so a replay
cannot release inventory a second time. -/
theorem C4_webhook_idempotent (s s1 : State) (i : String) (amt : ℚ) (o : Order)
    (hfind : matchedOrder s i = some o)
    (hpending : o.status = "pending")
    (hok : handlePaymentSuccess s i amt = Except.ok s1) :
    (matchedOrder s1 i).map (fun o2 => o2.status) = some "processing"
    ∧ handlePaymentSuccess s1 i amt = Except.ok s1
    ∧ handlePaymentFailure (handlePaymentFailure s i) i = handlePaymentFailure s i
    ∧ (handlePaymentFailure s i).products = s.products := by
  unfold handlePaymentSuccess at hok
  rw [hfind] at hok
  cases hok
  have hmatch1 := matched_updateFirst s.orders i
    (fun o2 => { o2 with paymentStatus := some "succeeded", status := "processing",
                         amountPaid := some amt }) o hfind rfl
  refine ⟨?_, ?_, ?_, rfl⟩
  · rw [matchedOrder_mk, hmatch1]
    rfl
  · unfold handlePaymentSuccess
    rw [matchedOrder_mk, hmatch1]
    have hidem := updateFirst_idem (fun o2 => o2.paymentIntentId == some i)
      (fun o2 => { o2 with paymentStatus := some "succeeded", status := "processing",
                           amountPaid := some amt }) s.orders (fun x h => h) (fun x => rfl)
    dsimp only
    rw [hidem]
  · have hidem2 := updateFirst_idem (fun o2 => o2.paymentIntentId == some i)
      (fun o2 => { o2 with paymentStatus := some "failed", status := "canceled" })
      s.orders (fun x h => h) (fun x => rfl)
    unfold handlePaymentFailure
    dsimp only
    rw [hidem2]

def c4s1 : State :=
  match handlePaymentSuccess c7s "pi_1" 46 with
  | Except.ok s => s
  | Except.error _ => c7s

/-- Witness for C4 at the concrete pending order of c7s. -/
theorem C4_webhook_idempotent_witness :
    (matchedOrder c4s1 "pi_1").map (fun o2 => o2.status) = some "processing"
    ∧ handlePaymentSuccess c4s1 "pi_1" 46 = Except.ok c4s1
    ∧ handlePaymentFailure (handlePaymentFailure c7s "pi_1") "pi_1" =
        handlePaymentFailure c7s "pi_1"
    ∧ (handlePaymentFailure c7s "pi_1").products = c7s.products :=
  C4_webhook_idempotent c7s c4s1 "pi_1" 46 c7ord rfl rfl rfl

/-! ### Claim C2 -/

def c2ord : Order :=
  { oid := 1, items := [{ product := 1, name := "Tee", quantity := 2, price := 10 }]
    itemsPrice := 20, taxPrice := 4, shippingPrice := 10, totalPrice := 34
    status := "pending", isPaid := false, paymentStatus := none
    paymentIntentId := some "pi_9", amountPaid := none, notes := none, discount := none }

def c2s : State :=
  { products := [{ pid := 1, name := "Tee", price := 10, stock := 5 }]
    orders := [c2ord]
    cart := none
    nextOrderId := 2 }

/-- Counterexample for C2: on a failed payment event for the pending order
(2 units of product 1 reserved, stock 5), the handler leaves stock at 5 —
it does not release the reserved 2 units — and writes the status literal
"canceled", which is not the schema value "cancelled". -/
theorem C2_counterexample :
    statusOf (handlePaymentFailure c2s "pi_9") 1 = some "canceled"
    ∧ stockOf (handlePaymentFailure c2s "pi_9") 1 = some 5
    ∧ ¬ (statusOf (handlePaymentFailure c2s "pi_9") 1 = some "cancelled"
         ∧ stockOf (handlePaymentFailure c2s "pi_9") 1 = some 7) := by
  refine ⟨rfl, rfl, ?_⟩
  intro h
  exact absurd h.1 (by decide)

/-- Claim C2 (amended): the payment failed webhook, for the order matched by
its payment correlation id, marks the payment failed and sets the order
status to the literal "canceled" (a value outside the schema status enum);
it releases no inventory — every product's stock is unchanged. -/
theorem C2_payment_failure_amended (s : State) (i : String) (o : Order)
    (hfind : matchedOrder s i = some o) :
    (handlePaymentFailure s i).products = s.products
    ∧ matchedOrder (handlePaymentFailure s i) i =
        some { o with paymentStatus := some "failed", status := "canceled" }
    ∧ orderStatusEnum.contains "canceled" = false := by
  refine ⟨rfl, ?_, rfl⟩
  unfold handlePaymentFailure
  rw [matchedOrder_mk]
  exact matched_updateFirst s.orders i _ o hfind rfl

/-- Witness for C2 (amended) at the concrete state c2s. -/
theorem C2_payment_failure_amended_witness :
    (handlePaymentFailure c2s "pi_9").products = c2s.products
    ∧ matchedOrder (handlePaymentFailure c2s "pi_9") "pi_9" =
        some { c2ord with paymentStatus := some "failed", status := "canceled" }
    ∧ orderStatusEnum.contains "canceled" = false :=
  C2_payment_failure_amended c2s "pi_9" c2ord rfl

/-! ### Claim C3 -/

/-- Claim C3 (amended): the model method cancelOrder on a shipped order
fails with the cannot-cancel error (and, returning an error, produces no
state change); but the admin endpoint updateOrderStatus applies no
transition check: requesting cancelled on the same shipped order succeeds,
sets the status to cancelled, and increments every ordered product's
stock. -/
theorem C3_cancel_shipped_amended (s : State) (oid : Nat) (o : Order)
    (hfind : findOrder s oid = some o) (hship : o.status = "shipped") :
    cancelOrder s oid = Except.error Err.cannotCancelShipped
    ∧ (∀ s1, updateOrderStatus s oid "cancelled" = Except.ok s1 →
        statusOf s1 oid = some "cancelled"
        ∧ ∀ pid, stockOf s1 pid = (stockOf s pid).map (fun v => v + (orderQty o.items pid : ℤ))) := by
  constructor
  · unfold cancelOrder
    simp only [hfind]
    rw [hship]
    rfl
  · intro s1 hupd
    exact updateOrderStatus_cancel_spec s oid o hfind s1 hupd

def c3ord : Order :=
  { oid := 1, items := [{ product := 1, name := "Tee", quantity := 2, price := 10 }]
    itemsPrice := 20, taxPrice := 4, shippingPrice := 10, totalPrice := 34
    status := "shipped", isPaid := true, paymentStatus := some "succeeded"
    paymentIntentId := some "pi_3", amountPaid := some 34, notes := none, discount := none }

def c3s : State :=
  { products := [{ pid := 1, name := "Tee", price := 10, stock := 5 }]
    orders := [c3ord]
    cart := none
    nextOrderId := 2 }

def c3s1 : State :=
  match updateOrderStatus c3s 1 "cancelled" with
  | Except.ok s => s
  | Except.error _ => c3s

unseal Rat.mul Rat.add Rat.sub Rat.inv in
/-- Counterexample for C3: cancelling the shipped order c3ord through the
admin updateOrderStatus endpoint does not fail — it succeeds, sets the
status to cancelled, and raises the product's stock from 5 to 7. -/
theorem C3_counterexample :
    updateOrderStatus c3s 1 "cancelled" = Except.ok c3s1
    ∧ statusOf c3s 1 = some "shipped"
    ∧ stockOf c3s 1 = some 5
    ∧ statusOf c3s1 1 = some "cancelled"
    ∧ stockOf c3s1 1 = some 7 :=
  ⟨rfl, rfl, rfl, rfl, rfl⟩

unseal Rat.mul Rat.add Rat.sub Rat.inv in
/-- Witness for C3 (amended) at the concrete shipped order c3ord. -/
theorem C3_cancel_shipped_amended_witness :
    cancelOrder c3s 1 = Except.error Err.cannotCancelShipped
    ∧ (statusOf c3s1 1 = some "cancelled"
      ∧ ∀ pid, stockOf c3s1 pid = (stockOf c3s pid).map (fun v => v + (orderQty c3ord.items pid : ℤ))) :=
  ⟨(C3_cancel_shipped_amended c3s 1 c3ord rfl rfl).1,
    (C3_cancel_shipped_amended c3s 1 c3ord rfl rfl).2 c3s1 rfl⟩

/-! ### Claim C6 -/

/-- Claim C6 (amended): for an order in status pending or processing, the
admin cancel path (updateOrderStatus with target cancelled) increments each
ordered product's stock by exactly that line's quantity; the model method
cancelOrder, however, only sets the status — it releases no inventory and
leaves every product's stock unchanged. -/
theorem C6_cancel_restock_amended (s : State) (oid : Nat) (o : Order)
    (hfind : findOrder s oid = some o)
    (hstat : o.status = "pending" ∨ o.status = "processing") :
    (∀ s1, updateOrderStatus s oid "cancelled" = Except.ok s1 →
        ∀ pid, stockOf s1 pid = (stockOf s pid).map (fun v => v + (orderQty o.items pid : ℤ)))
    ∧ (∀ s2, cancelOrder s oid = Except.ok s2 → s2.products = s.products) := by
  constructor
  · intro s1 hupd
    exact (updateOrderStatus_cancel_spec s oid o hfind s1 hupd).2
  · intro s2 hcan
    unfold cancelOrder at hcan
    simp only [hfind] at hcan
    split at hcan
    · cases hcan
    · cases hcan
      rfl

def c6ord : Order :=
  { oid := 1, items := [{ product := 1, name := "Tee", quantity := 2, price := 10 }]
    itemsPrice := 20, taxPrice := 4, shippingPrice := 10, totalPrice := 34
    status := "pending", isPaid := false, paymentStatus := none
    paymentIntentId := some "pi_6", amountPaid := none, notes := none, discount := none }

def c6s : State :=
  { products := [{ pid := 1, name := "Tee", price := 10, stock := 5 }]
    orders := [c6ord]
    cart := none
    nextOrderId := 2 }

def c6s2 : State :=
  match cancelOrder c6s 1 with
  | Except.ok s => s
  | Except.error _ => c6s

unseal Rat.mul Rat.add Rat.sub Rat.inv in
/-- Counterexample for C6: cancelling the pending order c6ord (2 units of
product 1) through the model method cancelOrder succeeds but leaves the
stock at 5 — the claimed increment to 7 does not happen. -/
theorem C6_counterexample :
    cancelOrder c6s 1 = Except.ok c6s2
    ∧ statusOf c6s2 1 = some "cancelled"
    ∧ stockOf c6s2 1 = some 5
    ∧ ¬ stockOf c6s2 1 = some 7 := by
  refine ⟨rfl, rfl, rfl, ?_⟩
  intro h
  cases h

def c6s1 : State :=
  match updateOrderStatus c6s 1 "cancelled" with
  | Except.ok s => s
  | Except.error _ => c6s

unseal Rat.mul Rat.add Rat.sub Rat.inv in
/-- Witness for C6 (amended) at the concrete pending order c6ord. -/
theorem C6_cancel_restock_amended_witness :
    (∀ pid, stockOf c6s1 pid = (stockOf c6s pid).map (fun v => v + (orderQty c6ord.items pid : ℤ)))
    ∧ c6s2.products = c6s.products :=
  ⟨(C6_cancel_restock_amended c6s 1 c6ord rfl (Or.inl rfl)).1 c6s1 rfl,
    (C6_cancel_restock_amended c6s 1 c6ord rfl (Or.inl rfl)).2 c6s2 rfl⟩

/-! ### Claim C8 -/

/-- Claim C8: requestRefund succeeds (setting the status to refunded) only
when the order is paid; it fails on an unpaid order and on an already
refunded order; and a successful refund changes no product's stock. -/
theorem C8_refund_rules (s : State) (oid : Nat) (o : Order) (r : Option String)
    (hfind : findOrder s oid = some o) :
    (o.isPaid = false → requestRefund s oid r = Except.error Err.notPaid)
    ∧ (o.isPaid = true → o.status = "refunded" →
        requestRefund s oid r = Except.error Err.alreadyRefunded)
    ∧ (o.isPaid = true → o.status ≠ "refunded" →
        ∃ s1, requestRefund s oid r = Except.ok s1
          ∧ s1.products = s.products
          ∧ statusOf s1 oid = some "refunded") := by
  refine ⟨?_, ?_, ?_⟩
  · intro hnp
    unfold requestRefund
    simp only [hfind]
    rw [hnp]
    rfl
  · intro hp hr
    unfold requestRefund
    simp only [hfind]
    rw [hp, hr]
    rfl
  · intro hp hr
    have hbeq : (o.status == "refunded") = false := beq_eq_false_iff_ne.mpr hr
    refine Exists.intro
      { s with
        orders := updateFirst (fun o2 => o2.oid == oid)
          (fun o2 =>
            preSave
              { o2 with
                status := "refunded"
                notes := some (r.getD "Remboursement demande") }) s.orders } ⟨?_, rfl, ?_⟩
    · unfold requestRefund
      simp only [hfind]
      rw [hp, hbeq]
      rfl
    · rw [statusOf_mk, findOrder_updateFirst s.orders oid _ o hfind rfl]
      rfl

def c8ord : Order :=
  { oid := 1, items := [{ product := 1, name := "Tee", quantity := 2, price := 10 }]
    itemsPrice := 20, taxPrice := 4, shippingPrice := 10, totalPrice := 34
    status := "delivered", isPaid := true, paymentStatus := some "succeeded"
    paymentIntentId := some "pi_8", amountPaid := some 34, notes := none, discount := none }

def c8s : State :=
  { products := [{ pid := 1, name := "Tee", price := 10, stock := 5 }]
    orders := [c8ord]
    cart := none
    nextOrderId := 2 }

unseal Rat.mul Rat.add Rat.sub Rat.inv in
/-- Witness for C8: refunding the paid, delivered order c8ord succeeds,
leaves the product list unchanged, and sets the status to refunded. -/
theorem C8_refund_rules_witness :
    ∃ s1, requestRefund c8s 1 none = Except.ok s1
      ∧ s1.products = c8s.products
      ∧ statusOf s1 1 = some "refunded" :=
  (C8_refund_rules c8s 1 c8ord none rfl).2.2 rfl (by decide)

/-! ### Claim C10 -/

/-- Claim C10: the admin deleteOrder operation, on any found order and
regardless of its status (a cancelled order included), increments each
referenced product's stock by the corresponding order line's quantity and
removes the order. -/
theorem C10_delete_restocks_unconditionally (s : State) (oid : Nat) (o : Order)
    (hfind : findOrder s oid = some o) :
    ∃ s1, deleteOrder s oid = Except.ok s1
      ∧ (∀ pid, stockOf s1 pid = (stockOf s pid).map (fun v => v + (orderQty o.items pid : ℤ)))
      ∧ s1.orders = removeFirst (fun o2 => o2.oid == oid) s.orders := by
  refine Exists.intro
    { s with
      products := applyOps (incOps o.items) s.products
      orders := removeFirst (fun o2 => o2.oid == oid) s.orders } ⟨?_, ?_, rfl⟩
  · unfold deleteOrder
    rw [hfind]
  · intro pid
    rw [stockOf_mk, stockOfP_applyOps, opsTotal_incOps]
    rfl

def c10ord : Order :=
  { oid := 1, items := [{ product := 1, name := "Tee", quantity := 2, price := 10 }]
    itemsPrice := 20, taxPrice := 4, shippingPrice := 10, totalPrice := 34
    status := "cancelled", isPaid := false, paymentStatus := some "failed"
    paymentIntentId := some "pi_10", amountPaid := none, notes := none, discount := none }

def c10s : State :=
  { products := [{ pid := 1, name := "Tee", price := 10, stock := 7 }]
    orders := [c10ord]
    cart := none
    nextOrderId := 2 }

/-- Witness for C10: deleting the already cancelled order c10ord (whose
inventory was already released, stock 7) releases 2 more units. -/
theorem C10_delete_restocks_unconditionally_witness :
    ∃ s1, deleteOrder c10s 1 = Except.ok s1
      ∧ (∀ pid, stockOf s1 pid = (stockOf c10s pid).map (fun v => v + (orderQty c10ord.items pid : ℤ)))
      ∧ s1.orders = removeFirst (fun o2 => o2.oid == 1) c10s.orders :=
  C10_delete_restocks_unconditionally c10s 1 c10ord rfl

/-! ### Claim C9 -/

theorem stockOfP_singleton (p : Product) (pid : Nat) :
    stockOfP [p] pid = if p.pid = pid then some p.stock else none := rfl

theorem cartQty_pos (items : List CartItem) (pid : Nat) (h : cartQty items pid ≠ 0) :
    ∃ it ∈ items, it.product = pid := by
  induction items with
  | nil => exact absurd rfl h
  | cons a l ih =>
    by_cases ha : a.product = pid
    · exact ⟨a, List.mem_cons_self a l, ha⟩
    · rw [show cartQty (a :: l) pid = (if a.product = pid then a.quantity else 0) +
        cartQty l pid from rfl, if_neg ha, zero_add] at h
      obtain ⟨it, hm, hp⟩ := ih h
      exact ⟨it, List.mem_cons_of_mem _ hm, hp⟩

/-- Claim C9 (amended): the per-line stock check of createOrder aborts with
an insufficient-stock error (and no mutation) when some line exceeds stock;
and when every product occurs in at most one cart line, a successful
checkout preserves non-negativity of every product's stock.  (With two cart
lines for the same product the bulk decrement can drive stock negative —
see the counterexample.) -/
theorem C9_stock_nonneg_amended (s : State) (items : List CartItem)
    (hcart : s.cart = some items)
    (hnd : (items.map (fun it => it.product)).Nodup)
    (hpos : ∀ pid v, stockOf s pid = some v → 0 ≤ v) :
    (∀ s1 ord, createOrder s = Except.ok (s1, ord) →
        ∀ pid v, stockOf s1 pid = some v → 0 ≤ v)
    ∧ ((∀ it ∈ items, ∃ p, findProduct s it.product = some p)
        → (∃ it ∈ items, ∃ p, findProduct s it.product = some p ∧ p.stock < (it.quantity : ℤ))
        → ∃ pid, createOrder s = Except.error (Err.insufficientStock pid)) := by
  constructor
  · intro s1 ord hok
    unfold createOrder at hok
    simp only [hcart] at hok
    split at hok
    · cases hok
    · rename_i hemp
      split at hok
      · cases hok
      · rename_i hvs
        cases hok
        intro pid v hv1
        rw [stockOf_mk, stockOfP_applyOps, opsTotal_decOps] at hv1
        cases hsp : stockOfP s.products pid with
        | none => rw [hsp] at hv1; cases hv1
        | some v0 =>
          rw [hsp, Option.map_some'] at hv1
          replace hv1 := Option.some.inj hv1
          have hv0 : 0 ≤ v0 := hpos pid v0 hsp
          by_cases hz : cartQty items pid = 0
          · rw [hz] at hv1
            omega
          · obtain ⟨it, hmem, hip⟩ := cartQty_pos items pid hz
            have hq : cartQty items pid = it.quantity := by
              rw [← hip]
              exact cartQty_of_nodup items it hnd hmem
            obtain ⟨p, hp, hstk⟩ : ∃ p, s.products.find? (fun q => q.pid == pid) = some p
                ∧ p.stock = v0 := by
              rw [stockOfP_eq_find?] at hsp
              cases hf : s.products.find? (fun q => q.pid == pid) with
              | none => rw [hf] at hsp; cases hsp
              | some p =>
                rw [hf, Option.map_some'] at hsp
                exact ⟨p, rfl, Option.some.inj hsp⟩
            have hle : (it.quantity : ℤ) ≤ p.stock := by
              refine validateStock_none items s.products hvs it hmem p ?_
              rw [hip]
              exact hp
            rw [hq] at hv1
            omega
  · intro hall hbad
    obtain ⟨pid, hv⟩ := validateStock_err items s.products hall hbad
    refine ⟨pid, ?_⟩
    have hne : items ≠ [] := by
      rcases hbad with ⟨it, hmem, _⟩
      exact List.ne_nil_of_mem hmem
    have hemp : items.isEmpty = false := by
      cases items with
      | nil => exact absurd rfl hne
      | cons a l => rfl
    unfold createOrder
    simp only [hcart, hemp, hv]
    rfl

def c9s : State :=
  { products := [{ pid := 1, name := "Tee", price := 10, stock := 5 }]
    orders := []
    cart := some [{ product := 1, quantity := 3 }, { product := 1, quantity := 3 }]
    nextOrderId := 0 }

def c9res : State × Order :=
  match createOrder c9s with
  | Except.ok r => r
  | Except.error _ => (c9s, emptyOrder)

unseal Rat.mul Rat.add Rat.sub Rat.inv in
/-- Counterexample for C9: stock 5, two cart lines of 3 units each for the
same product.  Each line passes the per-line check (3 is at most 5), the
checkout succeeds, and the bulk decrement leaves stock negative one. -/
theorem C9_counterexample :
    exOk (createOrder c9s) = true
    ∧ stockOf c9s 1 = some 5
    ∧ stockOf c9res.1 1 = some (-1)
    ∧ ((-1 : ℤ) < 0) := by
  refine ⟨rfl, rfl, rfl, by decide⟩

def c9wits : State :=
  { products := [{ pid := 1, name := "Tee", price := 10, stock := 5 }]
    orders := []
    cart := some [{ product := 1, quantity := 3 }]
    nextOrderId := 0 }

def c9wres : State × Order :=
  match createOrder c9wits with
  | Except.ok r => r
  | Except.error _ => (c9wits, emptyOrder)

unseal Rat.mul Rat.add Rat.sub Rat.inv in
/-- Witness for C9 (amended): with at most one line per product (here a
single line of 3 units against stock 5), checkout leaves the product's
stock at 2, which is non-negative. -/
theorem C9_stock_nonneg_amended_witness :
    stockOf c9wres.1 1 = some 2 ∧ (0 : ℤ) ≤ 2 :=
  ⟨rfl,
    (C9_stock_nonneg_amended c9wits [{ product := 1, quantity := 3 }] rfl
      (by decide)
      (by
        intro pid v hv
        rw [show stockOf c9wits pid =
          stockOfP [{ pid := 1, name := "Tee", price := 10, stock := 5 }] pid from rfl,
          stockOfP_singleton] at hv
        split at hv
        · cases hv
          decide
        · cases hv)).1 c9wres.1 c9wres.2 rfl 1 2 rfl⟩

/-! ### Claim C5 -/

/-- The pre-save total with no discount is the exact sum of the (already
rounded) components whenever the item subtotal is a whole number of
cents. -/
theorem preSave_total_no_discount (o : Order) (hd : o.discount = none)
    (hip : IsCents (itemsTotal o.items)) :
    (preSave o).totalPrice =
      (preSave o).itemsPrice + (preSave o).taxPrice + (preSave o).shippingPrice := by
  unfold preSave
  rw [hd]
  dsimp only
  rw [sub_zero]
  refine round2_of_isCents _ ?_
  refine (hip.add (isCents_round2 _)).add ?_
  by_cases hgt : itemsTotal o.items > 100
  · rw [if_pos hgt]
    exact isCents_zero
  · rw [if_neg hgt]
    exact isCents_ten

/-- Claim C5 (amended): for a successful checkout the created order's
monetary fields are those computed by the pre-save hook: itemsPrice is the
sum of price times quantity over the frozen items; taxPrice is 20 percent
of itemsPrice rounded to the nearest cent (not exactly 20 percent: see the
counterexample); shippingPrice is 0 exactly when itemsPrice exceeds 100 and
the flat fee 10 otherwise; checkout orders carry no discount; and when
every product price is a whole number of cents, totalPrice equals
itemsPrice + taxPrice + shippingPrice exactly.  At the claimed instance
(one line, quantity 3, price 10.00) this yields 30 / 6 / 10 / 46, as the
witness shows. -/
theorem C5_pricing_amended (s : State) (items : List CartItem) (s1 : State) (ord : Order)
    (hcart : s.cart = some items)
    (hcents : ∀ p ∈ s.products, IsCents p.price)
    (hok : createOrder s = Except.ok (s1, ord)) :
    ord.itemsPrice = itemsTotal ord.items
    ∧ ord.taxPrice = round2 (ord.itemsPrice * (2 / 10))
    ∧ ord.shippingPrice = (if ord.itemsPrice > 100 then (0 : ℚ) else 10)
    ∧ ord.discount = none
    ∧ ord.totalPrice = ord.itemsPrice + ord.taxPrice + ord.shippingPrice := by
  unfold createOrder at hok
  simp only [hcart] at hok
  split at hok
  · cases hok
  · split at hok
    · cases hok
    · cases hok
      have hip : IsCents (itemsTotal (items.map (mkOrderItem s.products))) := by
        refine isCents_itemsTotal _ ?_
        intro it hit
        obtain ⟨it0, _hmem, rfl⟩ := List.mem_map.mp hit
        unfold mkOrderItem
        cases hf : s.products.find? (fun p => p.pid == it0.product) with
        | none => exact ⟨0, by norm_num⟩
        | some p =>
          have hpmem : p ∈ s.products := List.mem_of_find?_eq_some hf
          exact hcents p hpmem
      exact ⟨rfl, rfl, rfl, rfl, preSave_total_no_discount _ rfl hip⟩

def c5good : State :=
  { products := [{ pid := 1, name := "Tee", price := 10, stock := 5 }]
    orders := []
    cart := some [{ product := 1, quantity := 3 }]
    nextOrderId := 0 }

def c5goodres : State × Order :=
  match createOrder c5good with
  | Except.ok r => r
  | Except.error _ => (c5good, emptyOrder)

unseal Rat.mul Rat.add Rat.sub Rat.inv in
/-- Witness for C5 (amended): the claimed end-to-end instance.  A cart with
one line of quantity 3 at price 10.00 checks out to an order with
itemsPrice 30, taxPrice 6, shippingPrice 10 and totalPrice 46, and the
computed fields satisfy the amended pricing laws. -/
theorem C5_pricing_amended_witness :
    (c5goodres.2.itemsPrice = itemsTotal c5goodres.2.items
      ∧ c5goodres.2.taxPrice = round2 (c5goodres.2.itemsPrice * (2 / 10))
      ∧ c5goodres.2.shippingPrice = (if c5goodres.2.itemsPrice > 100 then (0 : ℚ) else 10)
      ∧ c5goodres.2.discount = none
      ∧ c5goodres.2.totalPrice =
          c5goodres.2.itemsPrice + c5goodres.2.taxPrice + c5goodres.2.shippingPrice)
    ∧ c5goodres.2.itemsPrice = 30
    ∧ c5goodres.2.taxPrice = 6
    ∧ c5goodres.2.shippingPrice = 10
    ∧ c5goodres.2.totalPrice = 46 :=
  ⟨C5_pricing_amended c5good [{ product := 1, quantity := 3 }] c5goodres.1 c5goodres.2 rfl
      (by intro p hp
          rw [show c5good.products = [{ pid := 1, name := "Tee", price := 10, stock := 5 }]
            from rfl, List.mem_singleton] at hp
          subst hp
          exact ⟨1000, by norm_num⟩) rfl,
    by decide, by decide, by decide, by decide⟩

def c5bad : State :=
  { products := [{ pid := 1, name := "Pin", price := 1 / 100, stock := 10 }]
    orders := []
    cart := some [{ product := 1, quantity := 3 }]
    nextOrderId := 0 }

def c5badres : State × Order :=
  match createOrder c5bad with
  | Except.ok r => r
  | Except.error _ => (c5bad, emptyOrder)

unseal Rat.mul Rat.add Rat.sub Rat.inv in
/-- Counterexample for C5: three units at price 0.01 check out successfully
with itemsPrice 0.03, but the stored taxPrice is 0.01 — the rounded value —
and not 20 percent of the subtotal (0.006), so the claimed identity
taxPrice = itemsPrice * 20 percent fails on the created order. -/
theorem C5_counterexample :
    exOk (createOrder c5bad) = true
    ∧ c5badres.2.itemsPrice = 3 / 100
    ∧ c5badres.2.taxPrice = 1 / 100
    ∧ c5badres.2.taxPrice ≠ c5badres.2.itemsPrice * (2 / 10) := by
  refine ⟨rfl, by decide, by decide, by decide⟩

end ECom
